import Mathlib

/-!
Shallow embedding of the Kit version-compatibility scanner
(`scripts/version-test.ts`) and proofs about it.

The scanner receives a list of version identifier strings, and for each
version installs the dependency pinned at that version, builds a fixed
reference file against it, extracts diagnostic lines from the build output
on failure, and finally restores the dependency to its "latest" tag and
renders a markdown report.

External effects (the `bun add` install command, the `bun build` command,
the clock, and `writeFileSync`) are modelled by an explicit environment
`Env`; the sequential control flow of `testVersion` and `main` is
translated directly, with the external commands invoked by a run recorded
in an event trace.
-/

namespace VersionTest

/-- Default version list (source lines 16-22). -/
def DEFAULT_VERSIONS : List String := ["5.5.1", "5.0.0", "4.0.0", "3.0.0", "2.1.0"]

/-- The `TestResult` interface (source lines 24-29). -/
structure TestResult where
  version : String
  installed : Bool
  compiles : Bool
  errors : List String
deriving DecidableEq

/-- JS `s.includes(pat)`: `pat` occurs as a contiguous substring of `s`. -/
def includesStr (s pat : String) : Bool := decide (pat.data <:+: s.data)

/-- The filter predicate of source lines 70-76: a line is kept when it
contains one of the five fixed diagnostic substrings. -/
def matchesErrorPattern (l : String) : Bool :=
  includesStr l "error:" ||
    includesStr l "has no exported member" ||
    includesStr l "does not exist" ||
    includesStr l "is not assignable" ||
    includesStr l "Cannot find"

/-- Split a character list at every occurrence of `sep`, keeping empty
segments, in the manner of JS `String.prototype.split` with a one-character
separator: the result always has one more segment than there are
separators. -/
def splitOnChar (sep : Char) : List Char → List (List Char)
  | [] => [[]]
  | c :: rest =>
      if c = sep then [] :: splitOnChar sep rest
      else
        match splitOnChar sep rest with
        | [] => [[c]]
        | h :: t => (c :: h) :: t

/-- JS `rawOutput.split('\n')` (source line 69). -/
def splitLines (s : String) : List String :=
  (splitOnChar (Char.ofNat 10) s.data).map String.mk

/-- Strip leading and trailing whitespace from a list of characters. -/
def trimList (xs : List Char) : List Char :=
  ((xs.dropWhile Char.isWhitespace).reverse.dropWhile Char.isWhitespace).reverse

/-- JS `l.trim()` (source line 78). -/
def jsTrim (s : String) : String := String.mk (trimList s.data)

/-- Diagnostic extraction on build failure (source lines 66-78): split the
combined output on newlines, keep lines matching a diagnostic pattern, cap
at the first 20, and trim each retained line. -/
def extractErrors (raw : String) : List String :=
  (((splitLines raw).filter matchesErrorPattern).take 20).map jsTrim

/-- External commands a run invokes, in order: the pinned install and the
build inside `testVersion`, and the restore-to-latest in `main`. -/
inductive Event where
  | install (version : String)
  | build (version : String)
  | restore
deriving DecidableEq

/-- Environment: outcomes of the external collaborators.
`installOk v` is whether `bun add @solana/kit@v` succeeds (line 50);
`buildThrows v` is `some msg` when the build command itself throws
(the catch of lines 81-84); otherwise `buildExitCode v` and `buildRaw v`
are the build's exit status and combined stderr+stdout text (lines 61-66);
`nowISO` is `new Date().toISOString()` (line 95); `restoreOk`/`restoreErr`
describe the restore command of line 110; `writeErr` is `some e` when
`writeFileSync` (line 151) throws. -/
structure Env where
  installOk : String → Bool
  buildThrows : String → Option String
  buildExitCode : String → Nat
  buildRaw : String → String
  nowISO : String
  restoreOk : Bool
  restoreErr : String
  writeErr : Option String

/-- The per-version probe `testVersion` (source lines 38-87), paired with
the trace of external commands it invokes. Install failure short-circuits
with `errors = ["Install failed"]` and the build command is never run; on
a build-command exception the message is recorded (`"Unknown error"` when
the message is empty, mirroring `e.message || "Unknown error"`); otherwise
exit status 0 means success and a nonzero status triggers diagnostic
extraction. -/
def testVersion (env : Env) (version : String) : TestResult × List Event :=
  if env.installOk version then
    match env.buildThrows version with
    | some msg =>
        (⟨version, true, false, [if msg = "" then "Unknown error" else msg]⟩,
          [Event.install version, Event.build version])
    | none =>
        if env.buildExitCode version = 0 then
          (⟨version, true, true, []⟩, [Event.install version, Event.build version])
        else
          (⟨version, true, false, extractErrors (env.buildRaw version)⟩,
            [Event.install version, Event.build version])
  else
    (⟨version, false, false, ["Install failed"]⟩, [Event.install version])

/-- Version selection (source lines 90-91): CLI arguments when any are
given, the default list otherwise. -/
def resolveVersions (args : List String) : List String :=
  if args.length > 0 then args else DEFAULT_VERSIONS

/-- JS `xs.join(", ") || "none"` (source lines 146-147): the join, or
`"none"` when the join is the empty string. -/
def joinOrNone (xs : List String) : String :=
  let j := String.intercalate ", " xs
  if j = "" then "none" else j

/-- Header lines pushed to `output` before the loop (source lines 93-97). -/
def headerLines (env : Env) (n : Nat) : List String :=
  ["# Kit Version Compatibility Test Results", "",
    "**Date:** " ++ env.nowISO,
    "**Versions tested:** " ++ toString n, ""]

/-- One row of the results table (source lines 118-121). -/
def tableRow (r : TestResult) : String :=
  "| " ++ r.version ++ " | " ++ (if r.installed then "✓" else "✗") ++
    " | " ++ (if r.compiles then "✓" else "✗") ++ " |"

/-- The results table (source lines 113-122). -/
def tableLines (results : List TestResult) : List String :=
  ["## Results Table", "", "| Version | Installs | Compiles |",
    "|---------|----------|----------|"] ++ results.map tableRow

/-- Probes with non-empty diagnostics (source line 125). -/
def brokenOf (results : List TestResult) : List TestResult :=
  results.filter (fun r => r.errors.length > 0)

/-- Probes that compiled (source line 142). -/
def workingOf (results : List TestResult) : List TestResult :=
  results.filter (fun r => r.compiles)

/-- Detail block for one broken probe (source lines 131-138). -/
def detailBlock (r : TestResult) : List String :=
  ["", "### " ++ r.version, "", "```"] ++ r.errors ++ ["```"]

/-- The breaking-changes detail section (source lines 127-139), present
only when some probe has non-empty diagnostics. -/
def detailLines (broken : List TestResult) : List String :=
  if broken.length > 0 then
    ["", "## Breaking Changes Detail"] ++ broken.flatMap detailBlock
  else []

/-- The two-line summary (source lines 141-147). -/
def summaryLines (working broken : List TestResult) : List String :=
  ["", "## Summary", "",
    "- **Compatible:** " ++ joinOrNone (working.map (fun r => r.version)),
    "- **Breaking:** " ++ joinOrNone (broken.map (fun r => r.version))]

/-- Outcome of one `main` invocation: the collected probe results, the
trace of external commands, the content of the `output` array when `main`
ends (normally or by exception), the content written to `test-results.md`
(`none` when the run never reaches the write, or the write throws), and
the exception escaping `main`, if any. -/
structure RunOutcome where
  results : List TestResult
  trace : List Event
  output : List String
  report : Option (List String)
  error : Option String
deriving DecidableEq

/-- Results collected by the loop of source lines 101-106, in request
order: `testVersion` is awaited per version and its result appended. -/
def runResults (env : Env) (args : List String) : List TestResult :=
  (resolveVersions args).map (fun v => (testVersion env v).1)

/-- External commands invoked by one run: the per-version commands of the
loop (lines 101-106) in order, then the restore-to-latest of line 110,
which is reached on every path since `testVersion` catches all of its own
exceptions. -/
def runTrace (env : Env) (args : List String) : List Event :=
  (resolveVersions args).flatMap (fun v => (testVersion env v).2) ++ [Event.restore]

/-- Rendered report lines: header (pushed before the loop), results table,
breaking-changes detail section, and summary (source lines 93-147). -/
def renderedOutput (env : Env) (results : List TestResult) : List String :=
  headerLines env results.length ++ tableLines results ++
    detailLines (brokenOf results) ++
    summaryLines (workingOf results) (brokenOf results)

/-- The driver `main` (source lines 89-153). Versions are probed
sequentially in order; the restore command runs once after the loop
(line 110) and, not being wrapped in any try/catch, aborts `main` on
failure before any of the table, detail and summary rendering; otherwise
the report lines are assembled and written to `test-results.md`, whose
write failure is the only remaining exception source. -/
def mainRun (env : Env) (args : List String) : RunOutcome :=
  let results := runResults env args
  let trace := runTrace env args
  if env.restoreOk then
    match env.writeErr with
    | some e => ⟨results, trace, renderedOutput env results, none, some e⟩
    | none =>
        ⟨results, trace, renderedOutput env results, some (renderedOutput env results), none⟩
  else
    ⟨results, trace, headerLines env (resolveVersions args).length, none,
      some env.restoreErr⟩

/-- Outcome of the whole process, source line 155: `main().catch(console.error)`.
An exception escaping `main` is passed to `console.error`, which prints it
raw to the standard error stream; because the rejection is thereby handled,
the process then terminates normally, so its exit code is 0 on every path
(the script never sets `process.exitCode` and never calls `process.exit`). -/
structure DriverOutcome where
  run : RunOutcome
  stderrLines : List String
  exitCode : Nat
deriving DecidableEq

/-- The top-level expression `main().catch(console.error)` (source line 155). -/
def driver (env : Env) (args : List String) : DriverOutcome :=
  match (mainRun env args).error with
  | some e => ⟨mainRun env args, [e], 0⟩
  | none => ⟨mainRun env args, [], 0⟩

/-! ### Case characterizations of `testVersion` -/

/-- Install failure branch (source lines 49-57). -/
theorem testVersion_install_fail (env : Env) (v : String) (h : env.installOk v = false) :
    testVersion env v = (⟨v, false, false, ["Install failed"]⟩, [Event.install v]) := by
  simp [testVersion, h]

/-- Build-command exception branch (source lines 81-84). -/
theorem testVersion_build_throw (env : Env) (v msg : String)
    (h : env.installOk v = true) (hb : env.buildThrows v = some msg) :
    testVersion env v =
      (⟨v, true, false, [if msg = "" then "Unknown error" else msg]⟩,
        [Event.install v, Event.build v]) := by
  simp [testVersion, h, hb]

/-- Successful build branch (source lines 62-64). -/
theorem testVersion_build_ok (env : Env) (v : String)
    (h : env.installOk v = true) (hb : env.buildThrows v = none)
    (he : env.buildExitCode v = 0) :
    testVersion env v = (⟨v, true, true, []⟩, [Event.install v, Event.build v]) := by
  simp [testVersion, h, hb, he]

/-- Failed build branch (source lines 65-79). -/
theorem testVersion_build_fail (env : Env) (v : String)
    (h : env.installOk v = true) (hb : env.buildThrows v = none)
    (he : env.buildExitCode v ≠ 0) :
    testVersion env v =
      (⟨v, true, false, extractErrors (env.buildRaw v)⟩,
        [Event.install v, Event.build v]) := by
  simp [testVersion, h, hb, he]

/-- The probe always records the requested version identifier. -/
theorem testVersion_version (env : Env) (v : String) :
    (testVersion env v).1.version = v := by
  cases h : env.installOk v
  · rw [testVersion_install_fail env v h]
  · cases hb : env.buildThrows v
    · by_cases he : env.buildExitCode v = 0
      · rw [testVersion_build_ok env v h hb he]
      · rw [testVersion_build_fail env v h hb he]
    · rw [testVersion_build_throw env v _ h hb]

/-- A probe that compiled has no diagnostics: only the exit-status-0 branch
sets `compiles`, and it leaves `errors` empty. -/
theorem testVersion_compiles_errors (env : Env) (v : String)
    (h : (testVersion env v).1.compiles = true) : (testVersion env v).1.errors = [] := by
  cases hi : env.installOk v
  · rw [testVersion_install_fail env v hi] at h
    exact absurd h (by simp)
  · cases hb : env.buildThrows v
    · by_cases he : env.buildExitCode v = 0
      · rw [testVersion_build_ok env v hi hb he]
      · rw [testVersion_build_fail env v hi hb he] at h
        exact absurd h (by simp)
    · rw [testVersion_build_throw env v _ hi hb] at h
      exact absurd h (by simp)

/-- The build command is attempted exactly when the install succeeded, so a
probe's trace never holds a `restore` event. -/
theorem restore_not_mem_testVersion (env : Env) (v : String) :
    Event.restore ∉ (testVersion env v).2 := by
  cases hi : env.installOk v
  · rw [testVersion_install_fail env v hi]; simp
  · cases hb : env.buildThrows v
    · by_cases he : env.buildExitCode v = 0
      · rw [testVersion_build_ok env v hi hb he]; simp
      · rw [testVersion_build_fail env v hi hb he]; simp
    · rw [testVersion_build_throw env v _ hi hb]; simp

/-! ### Branch lemmas for `mainRun` -/

/-- When the restore command fails, `main` aborts before rendering: the
output array still holds only the header, nothing is written, and the
restore error escapes. -/
theorem mainRun_restore_fail (env : Env) (args : List String) (h : env.restoreOk = false) :
    mainRun env args =
      ⟨runResults env args, runTrace env args,
        headerLines env (resolveVersions args).length, none, some env.restoreErr⟩ := by
  simp [mainRun, h]

/-- When the restore succeeds and the report write throws, the full report
text was rendered but the file write fails and the error escapes. -/
theorem mainRun_write_fail (env : Env) (args : List String) (e : String)
    (h : env.restoreOk = true) (hw : env.writeErr = some e) :
    mainRun env args =
      ⟨runResults env args, runTrace env args,
        renderedOutput env (runResults env args), none, some e⟩ := by
  simp [mainRun, h, hw]

/-- The normal path: restore and write both succeed, the rendered report is
written to `test-results.md`, and no exception escapes. -/
theorem mainRun_ok (env : Env) (args : List String)
    (h : env.restoreOk = true) (hw : env.writeErr = none) :
    mainRun env args =
      ⟨runResults env args, runTrace env args,
        renderedOutput env (runResults env args),
        some (renderedOutput env (runResults env args)), none⟩ := by
  simp [mainRun, h, hw]

/-- The collected results are branch-independent: every path of `main`
keeps the probes gathered by the loop. -/
theorem mainRun_results (env : Env) (args : List String) :
    (mainRun env args).results = runResults env args := by
  cases h : env.restoreOk
  · rw [mainRun_restore_fail env args h]
  · cases hw : env.writeErr
    · rw [mainRun_ok env args h hw]
    · rw [mainRun_write_fail env args _ h hw]

/-- The command trace is branch-independent. -/
theorem mainRun_trace (env : Env) (args : List String) :
    (mainRun env args).trace = runTrace env args := by
  cases h : env.restoreOk
  · rw [mainRun_restore_fail env args h]
  · cases hw : env.writeErr
    · rw [mainRun_ok env args h hw]
    · rw [mainRun_write_fail env args _ h hw]

/-- Probed versions are exactly the resolved request list, in order. -/
theorem runResults_versions (env : Env) (args : List String) :
    (runResults env args).map TestResult.version = resolveVersions args := by
  unfold runResults
  rw [List.map_map]
  have h : (TestResult.version ∘ fun v => (testVersion env v).1) = id :=
    funext fun v => testVersion_version env v
  rw [h, List.map_id]

/-! ### Trimming preserves the diagnostic patterns

`result.errors` holds trimmed lines (source line 78) while the filter of
lines 70-76 ran on the untrimmed lines; since every diagnostic pattern
starts and ends with a non-whitespace character, an occurrence survives
the trim. -/

/-- Dropping a whitespace prefix cannot destroy an occurrence of a pattern
whose first character is not whitespace. -/
theorem infix_dropWhile_head {p : Char → Bool} {a : Char} {t xs : List Char}
    (ha : p a = false) (h : (a :: t) <:+: xs) : (a :: t) <:+: xs.dropWhile p := by
  obtain ⟨s, u, rfl⟩ := h
  induction s with
  | nil =>
      rw [List.nil_append, List.cons_append, List.dropWhile_cons, ha]
      exact ⟨[], u, rfl⟩
  | cons c s ih =>
      rw [List.cons_append, List.cons_append, List.dropWhile_cons]
      split
      · exact ih
      · exact ⟨c :: s, u, by simp⟩

/-- Trimming both ends cannot destroy an occurrence of a pattern whose
first and last characters are not whitespace. -/
theorem infix_trimList {a b : Char} {mid xs : List Char}
    (ha : a.isWhitespace = false) (hb : b.isWhitespace = false)
    (h : (a :: (mid ++ [b])) <:+: xs) :
    (a :: (mid ++ [b])) <:+: trimList xs := by
  have h1 : (a :: (mid ++ [b])) <:+: xs.dropWhile Char.isWhitespace :=
    infix_dropWhile_head ha h
  have hrev : (a :: (mid ++ [b])).reverse = b :: (mid.reverse ++ [a]) := by
    simp
  have h2 : (b :: (mid.reverse ++ [a])) <:+: (xs.dropWhile Char.isWhitespace).reverse := by
    rw [← hrev]
    exact List.reverse_infix.mpr h1
  have h3 : (b :: (mid.reverse ++ [a])) <:+:
      ((xs.dropWhile Char.isWhitespace).reverse).dropWhile Char.isWhitespace :=
    infix_dropWhile_head hb h2
  have h4 : (a :: (mid ++ [b])).reverse <:+: (trimList xs).reverse := by
    unfold trimList
    rw [List.reverse_reverse, hrev]
    exact h3
  exact List.reverse_infix.mp h4

/-- An occurrence of a pattern with non-whitespace endpoints survives
`jsTrim`, stated on `includesStr`. -/
theorem includesStr_jsTrim (l pat : String) (a b : Char) (mid : List Char)
    (hpat : pat.data = a :: (mid ++ [b]))
    (ha : a.isWhitespace = false) (hb : b.isWhitespace = false)
    (h : includesStr l pat = true) : includesStr (jsTrim l) pat = true := by
  have hp : pat.data <:+: l.data := of_decide_eq_true h
  rw [hpat] at hp
  have h2 : (a :: (mid ++ [b])) <:+: trimList l.data := infix_trimList ha hb hp
  have h3 : pat.data <:+: (jsTrim l).data := by
    rw [hpat]
    exact h2
  exact decide_eq_true h3

/-- A line matching one of the five diagnostic patterns still matches it
after trimming: each pattern starts and ends with a non-whitespace
character. -/
theorem matchesErrorPattern_jsTrim {l : String}
    (h : matchesErrorPattern l = true) : matchesErrorPattern (jsTrim l) = true := by
  simp only [matchesErrorPattern, Bool.or_eq_true] at h ⊢
  rcases h with (((h | h) | h) | h) | h
  · exact Or.inl (Or.inl (Or.inl (Or.inl (includesStr_jsTrim l "error:" 'e' ':'
      ['r', 'r', 'o', 'r'] (by decide) (by decide) (by decide) h))))
  · exact Or.inl (Or.inl (Or.inl (Or.inr (includesStr_jsTrim l "has no exported member"
      'h' 'r' "as no exported membe".data (by decide) (by decide) (by decide) h))))
  · exact Or.inl (Or.inl (Or.inr (includesStr_jsTrim l "does not exist" 'd' 't'
      "oes not exis".data (by decide) (by decide) (by decide) h)))
  · exact Or.inl (Or.inr (includesStr_jsTrim l "is not assignable" 'i' 'e'
      "s not assignabl".data (by decide) (by decide) (by decide) h))
  · exact Or.inr (includesStr_jsTrim l "Cannot find" 'C' 'd'
      "annot fin".data (by decide) (by decide) (by decide) h)

/-- Every retained diagnostic is the trim of an output line that passed the
pattern filter, hence itself matches a pattern. -/
theorem extractErrors_matches (raw : String) :
    ∀ e ∈ extractErrors raw, matchesErrorPattern e = true := by
  intro e he
  unfold extractErrors at he
  obtain ⟨l, hl, rfl⟩ := List.mem_map.mp he
  have hl2 : l ∈ (splitLines raw).filter matchesErrorPattern :=
    List.mem_of_mem_take hl
  exact matchesErrorPattern_jsTrim (List.mem_filter.mp hl2).2

/-! ### Concrete environments used by witnesses and counterexamples -/

/-- Every external step succeeds; builds exit 0. -/
def envAllOk : Env :=
  ⟨fun _ => true, fun _ => none, fun _ => 0, fun _ => "",
    "2026-02-02T00:00:00.000Z", true, "restore failed", none⟩

/-- Every install command fails. -/
def envInstallFail : Env :=
  ⟨fun _ => false, fun _ => none, fun _ => 0, fun _ => "",
    "2026-02-02T00:00:00.000Z", true, "restore failed", none⟩

/-- Installs succeed, builds exit 1 with output in which no line matches a
diagnostic pattern. -/
def envNoMatch : Env :=
  ⟨fun _ => true, fun _ => none, fun _ => 1, fun _ => "building cookbook",
    "2026-02-02T00:00:00.000Z", true, "restore failed", none⟩

/-- Installs succeed, builds exit 1, and the output holds one missing-export
diagnostic line between two unrelated progress lines. -/
def envExportScenario : Env :=
  ⟨fun _ => true, fun _ => none, fun _ => 1,
    fun _ => "bundling cookbook.ts\nModule has no exported member 'foo'\ndone",
    "2026-02-02T00:00:00.000Z", true, "restore failed", none⟩

/-- Probes succeed but the post-loop restore-to-latest command fails. -/
def envRestoreFail : Env :=
  ⟨fun _ => true, fun _ => none, fun _ => 0, fun _ => "",
    "2026-02-02T00:00:00.000Z", false, "restore failed", none⟩

/-- Probes and restore succeed but `writeFileSync` throws. -/
def envWriteFail : Env :=
  ⟨fun _ => true, fun _ => none, fun _ => 0, fun _ => "",
    "2026-02-02T00:00:00.000Z", true, "restore failed",
    some "EACCES: cannot write test-results.md"⟩

/-! ### The claims -/

/-- C1: for every non-empty input list of version identifiers, the output
results sequence has exactly one probe per requested version, with the
same length and in the same order as the input list. -/
theorem claim_C1_output_order (env : Env) (args : List String) (h : args ≠ []) :
    (mainRun env args).results.length = args.length ∧
      (mainRun env args).results.map TestResult.version = args := by
  have hr : resolveVersions args = args := by
    unfold resolveVersions
    cases args with
    | nil => exact absurd rfl h
    | cons a t => simp
  have hm : (mainRun env args).results.map TestResult.version = args := by
    rw [mainRun_results, runResults_versions, hr]
  refine ⟨?_, hm⟩
  have hl := congrArg List.length hm
  simpa using hl

/-- Witness for C1 at a concrete two-version input. -/
theorem claim_C1_witness :
    (mainRun envInstallFail ["5.5.1", "2.1.0"]).results.length = 2 ∧
      (mainRun envInstallFail ["5.5.1", "2.1.0"]).results.map TestResult.version =
        ["5.5.1", "2.1.0"] :=
  claim_C1_output_order envInstallFail ["5.5.1", "2.1.0"] (by decide)

/-- C2: when dependency acquisition fails for a version, the probe is
`{installed := false, compiles := false, errors := ["Install failed"]}`
and the build command is never invoked for that version. -/
theorem claim_C2_install_failure (env : Env) (v : String) (h : env.installOk v = false) :
    testVersion env v = (⟨v, false, false, ["Install failed"]⟩, [Event.install v]) ∧
      Event.build v ∉ (testVersion env v).2 := by
  have ht := testVersion_install_fail env v h
  refine ⟨ht, ?_⟩
  rw [ht]
  simp

/-- Witness for C2: the install of version 2.1.0 throws. -/
theorem claim_C2_witness :
    testVersion envInstallFail "2.1.0" =
        (⟨"2.1.0", false, false, ["Install failed"]⟩, [Event.install "2.1.0"]) ∧
      Event.build "2.1.0" ∉ (testVersion envInstallFail "2.1.0").2 :=
  claim_C2_install_failure envInstallFail "2.1.0" rfl

/-- C5: every probe with `compiles = true` has empty diagnostics, and when
the install succeeds and the build exits with status 0 the probe is exactly
`{installed := true, compiles := true, errors := []}`. -/
theorem claim_C5_compiled_no_diagnostics (env : Env) (v : String) :
    ((testVersion env v).1.compiles = true → (testVersion env v).1.errors = []) ∧
      (env.installOk v = true → env.buildThrows v = none → env.buildExitCode v = 0 →
        (testVersion env v).1 = ⟨v, true, true, []⟩) := by
  refine ⟨testVersion_compiles_errors env v, fun h hb he => ?_⟩
  rw [testVersion_build_ok env v h hb he]

/-- Witness for C5: a version whose build exits 0. -/
theorem claim_C5_witness :
    (testVersion envAllOk "5.5.1").1.errors = [] ∧
      (testVersion envAllOk "5.5.1").1 = ⟨"5.5.1", true, true, []⟩ :=
  ⟨(claim_C5_compiled_no_diagnostics envAllOk "5.5.1").1 rfl,
    (claim_C5_compiled_no_diagnostics envAllOk "5.5.1").2 rfl rfl rfl⟩

/-- C6: the restore-to-latest command is invoked exactly once per run, and
only after all requested probes have completed — it is the last external
command of the trace — regardless of the environment, so in particular
regardless of how many probes failed. -/
theorem claim_C6_restore_once_after (env : Env) (args : List String) :
    (mainRun env args).trace.count Event.restore = 1 ∧
      (mainRun env args).trace.getLast? = some Event.restore := by
  rw [mainRun_trace]
  unfold runTrace
  constructor
  · rw [List.count_append]
    have h0 : (((resolveVersions args).flatMap fun v => (testVersion env v).2).count
        Event.restore) = 0 := by
      rw [List.count_eq_zero]
      intro hmem
      obtain ⟨v, hv, hin⟩ := List.mem_flatMap.mp hmem
      exact restore_not_mem_testVersion env v hin
    rw [h0]
    simp
  · exact List.getLast?_concat _

/-- C9: with zero version arguments the scanner probes the built-in default
list in its defined order; with arguments, exactly those are probed. -/
theorem claim_C9_default_versions (env : Env) (args : List String) :
    (mainRun env []).results.map TestResult.version =
        ["5.5.1", "5.0.0", "4.0.0", "3.0.0", "2.1.0"] ∧
      (args ≠ [] → (mainRun env args).results.map TestResult.version = args) := by
  constructor
  · rw [mainRun_results, runResults_versions]
    rfl
  · intro h
    rw [mainRun_results, runResults_versions]
    unfold resolveVersions
    cases args with
    | nil => exact absurd rfl h
    | cons a t => simp

/-- Witness for C9 with one explicit argument. -/
theorem claim_C9_witness :
    (mainRun envAllOk ["9.9.9"]).results.map TestResult.version = ["9.9.9"] :=
  (claim_C9_default_versions envAllOk ["9.9.9"]).2 (by decide)

/-- C3 (amended): when acquisition succeeds and the build exits nonzero,
the diagnostics are exactly the earliest pattern-matching output lines in
encounter order, trimmed and capped at the first 20; the length is at most
20, and it is zero precisely when no output line matches a pattern (the
stated lower bound of 1 does not hold in general). -/
theorem claim_C3_diagnostics_cap (env : Env) (v : String)
    (h : env.installOk v = true) (hb : env.buildThrows v = none)
    (he : env.buildExitCode v ≠ 0) :
    (testVersion env v).1.errors =
        (((splitLines (env.buildRaw v)).filter matchesErrorPattern).take 20).map jsTrim ∧
      (testVersion env v).1.errors.length ≤ 20 ∧
      ((testVersion env v).1.errors = [] ↔
        ∀ l ∈ splitLines (env.buildRaw v), matchesErrorPattern l = false) := by
  have ht := testVersion_build_fail env v h hb he
  rw [ht]
  show extractErrors (env.buildRaw v) = _ ∧ (extractErrors (env.buildRaw v)).length ≤ 20 ∧ _
  unfold extractErrors
  refine ⟨rfl, ?_, ?_⟩
  · rw [List.length_map, List.length_take]
    exact Nat.min_le_left _ _
  · constructor
    · intro hnil
      rcases List.take_eq_nil_iff.mp (List.map_eq_nil_iff.mp hnil) with h20 | hfil
      · exact absurd h20 (by decide)
      · intro l hl
        have hno := List.filter_eq_nil_iff.mp hfil l hl
        simpa using hno
    · intro hall
      have hfil : (splitLines (env.buildRaw v)).filter matchesErrorPattern = [] := by
        rw [List.filter_eq_nil_iff]
        intro a ha
        simp [hall a ha]
      rw [hfil]
      rfl

/-- Counterexample to C3 as stated: a failing build whose output has no
line matching any diagnostic pattern yields an empty diagnostics sequence,
so the claimed lower bound of 1 fails. -/
theorem claim_C3_counterexample :
    envNoMatch.installOk "3.0.0" = true ∧
      envNoMatch.buildThrows "3.0.0" = none ∧
      envNoMatch.buildExitCode "3.0.0" ≠ 0 ∧
      (testVersion envNoMatch "3.0.0").1 = ⟨"3.0.0", true, false, []⟩ ∧
      ¬1 ≤ (testVersion envNoMatch "3.0.0").1.errors.length := by
  decide

/-- Witness for the amended C3 at a build output holding one matching
line. -/
theorem claim_C3_witness :
    (testVersion envExportScenario "4.0.0").1.errors =
        ["Module has no exported member 'foo'"] ∧
      (testVersion envExportScenario "4.0.0").1.errors.length ≤ 20 := by
  have h := claim_C3_diagnostics_cap envExportScenario "4.0.0" rfl rfl (by decide)
  refine ⟨?_, h.2.1⟩
  rw [h.1]
  decide

/-- C4 (amended): a failure of the post-loop restore-to-latest step is
caught only by the top-level handler, which logs the raw error to the
standard error stream; the already-collected probe results are retained,
but rendering is aborted: the summary table, detail blocks and report file
are NOT produced (the output still holds only the pre-loop header). -/
theorem claim_C4_restore_failure_fatal (env : Env) (args : List String)
    (h : env.restoreOk = false) :
    (mainRun env args).results = runResults env args ∧
      (mainRun env args).error = some env.restoreErr ∧
      (driver env args).stderrLines = [env.restoreErr] ∧
      (mainRun env args).report = none ∧
      (mainRun env args).output = headerLines env (resolveVersions args).length := by
  have hm := mainRun_restore_fail env args h
  refine ⟨?_, ?_, ?_, ?_, ?_⟩
  · rw [hm]
  · rw [hm]
  · unfold driver
    rw [hm]
  · rw [hm]
  · rw [hm]

/-- Counterexample to C4 as stated: with one version that installs and
compiles fine but a failing restore command, the run errors out, no report
file is written, and neither the results table nor the summary is ever
rendered — the probe result was collected, yet it is not reported. -/
theorem claim_C4_counterexample :
    (mainRun envRestoreFail ["5.5.1"]).error = some "restore failed" ∧
      (mainRun envRestoreFail ["5.5.1"]).report = none ∧
      "## Results Table" ∉ (mainRun envRestoreFail ["5.5.1"]).output ∧
      "## Summary" ∉ (mainRun envRestoreFail ["5.5.1"]).output ∧
      (testVersion envRestoreFail "5.5.1").1.compiles = true := by
  decide

/-- Witness for the amended C4. -/
theorem claim_C4_witness :
    (mainRun envRestoreFail ["5.5.1"]).error = some "restore failed" ∧
      (mainRun envRestoreFail ["5.5.1"]).report = none ∧
      (driver envRestoreFail ["5.5.1"]).stderrLines = ["restore failed"] := by
  have h := claim_C4_restore_failure_fatal envRestoreFail ["5.5.1"] rfl
  exact ⟨h.2.1, h.2.2.2.1, h.2.2.1⟩

/-- C7: on a nonzero-exit build failure every retained diagnostic line
matches at least one of the five fixed substring patterns, and when
exactly one output line matches, the diagnostics are exactly that line
(trimmed) — lines matching no pattern are excluded. -/
theorem claim_C7_diagnostic_patterns (env : Env) (v : String)
    (h : env.installOk v = true) (hb : env.buildThrows v = none)
    (he : env.buildExitCode v ≠ 0) :
    (∀ e ∈ (testVersion env v).1.errors, matchesErrorPattern e = true) ∧
      (∀ line, (splitLines (env.buildRaw v)).filter matchesErrorPattern = [line] →
        (testVersion env v).1.errors = [jsTrim line]) := by
  have ht := testVersion_build_fail env v h hb he
  rw [ht]
  constructor
  · exact extractErrors_matches (env.buildRaw v)
  · intro line hline
    show extractErrors (env.buildRaw v) = _
    unfold extractErrors
    rw [hline]
    rfl

/-- Witness for C7: the build output holds the line
`Module has no exported member 'foo'` between two unrelated progress
lines; exactly that line is captured, and it matches a pattern. -/
theorem claim_C7_witness :
    matchesErrorPattern "Module has no exported member 'foo'" = true ∧
      (testVersion envExportScenario "4.0.0").1.errors =
        ["Module has no exported member 'foo'"] := by
  have h := claim_C7_diagnostic_patterns envExportScenario "4.0.0" rfl rfl (by decide)
  constructor
  · exact h.1 "Module has no exported member 'foo'" (by decide)
  · have h2 := h.2 "Module has no exported member 'foo'" (by decide)
    rw [h2]
    decide

/-- C8 (amended): an exception escaping `main` — possible exactly when the
restore command or the report write fails, so per-version install/build
failures never take this path — is printed raw to the standard error
stream by the final catch; because that catch handles the rejection, the
process terminates normally with exit code 0 on every path, not with a
non-zero failure signal. -/
theorem claim_C8_fatal_path (env : Env) (args : List String) :
    (driver env args).exitCode = 0 ∧
      ((mainRun env args).error = none ↔ env.restoreOk = true ∧ env.writeErr = none) ∧
      (∀ e, (mainRun env args).error = some e → (driver env args).stderrLines = [e]) ∧
      ((mainRun env args).error = none → (driver env args).stderrLines = []) := by
  refine ⟨?_, ?_, ?_, ?_⟩
  · unfold driver
    cases (mainRun env args).error <;> rfl
  · cases h : env.restoreOk
    · rw [mainRun_restore_fail env args h]
      simp [h]
    · cases hw : env.writeErr
      · rw [mainRun_ok env args h hw]
        simp [h, hw]
      · rw [mainRun_write_fail env args _ h hw]
        simp [h, hw]
  · intro e he
    unfold driver
    rw [he]
  · intro he
    unfold driver
    rw [he]

/-- Counterexample to C8 as stated: when the report write fails the error
is printed to standard error, but the exit code is 0 — the handled
rejection produces no non-zero failure signal. -/
theorem claim_C8_counterexample :
    (mainRun envWriteFail ["5.5.1"]).error =
        some "EACCES: cannot write test-results.md" ∧
      (driver envWriteFail ["5.5.1"]).stderrLines =
        ["EACCES: cannot write test-results.md"] ∧
      (driver envWriteFail ["5.5.1"]).exitCode = 0 := by
  decide

/-- Witness for the amended C8. -/
theorem claim_C8_witness :
    (driver envWriteFail ["2.1.0"]).exitCode = 0 ∧
      (driver envWriteFail ["2.1.0"]).stderrLines =
        ["EACCES: cannot write test-results.md"] :=
  ⟨(claim_C8_fatal_path envWriteFail ["2.1.0"]).1,
    (claim_C8_fatal_path envWriteFail ["2.1.0"]).2.2.1
      "EACCES: cannot write test-results.md" rfl⟩

/-- C10: a probe whose install succeeds but whose build fails with no
pattern-matching output line ends as `{installed := true,
compiles := false, errors := []}`; its version is in neither the
compatible nor the breaking set, it gets no detail block, both summary
lines read "none", and the two summary sets fail to partition the probed
versions. -/
theorem claim_C10_unclassified_probe (env : Env) (v : String)
    (h : env.installOk v = true) (hb : env.buildThrows v = none)
    (he : env.buildExitCode v ≠ 0)
    (hf : (splitLines (env.buildRaw v)).filter matchesErrorPattern = []) :
    (testVersion env v).1 = ⟨v, true, false, []⟩ ∧
      workingOf (mainRun env [v]).results = [] ∧
      brokenOf (mainRun env [v]).results = [] ∧
      detailLines (brokenOf (mainRun env [v]).results) = [] ∧
      summaryLines (workingOf (mainRun env [v]).results)
          (brokenOf (mainRun env [v]).results) =
        ["", "## Summary", "", "- **Compatible:** none", "- **Breaking:** none"] ∧
      (workingOf (mainRun env [v]).results).length +
          (brokenOf (mainRun env [v]).results).length ≠
        (mainRun env [v]).results.length := by
  have herr : extractErrors (env.buildRaw v) = [] := by
    unfold extractErrors
    rw [hf]
    rfl
  have ht := testVersion_build_fail env v h hb he
  have h1 : (testVersion env v).1 = ⟨v, true, false, []⟩ := by
    rw [ht]
    show TestResult.mk v true false (extractErrors (env.buildRaw v)) = _
    rw [herr]
  have hres : (mainRun env [v]).results = [(⟨v, true, false, []⟩ : TestResult)] := by
    rw [mainRun_results]
    unfold runResults
    simp [resolveVersions, h1]
  have hw : workingOf (mainRun env [v]).results = [] := by
    rw [hres]
    simp [workingOf]
  have hbr : brokenOf (mainRun env [v]).results = [] := by
    rw [hres]
    simp [brokenOf]
  refine ⟨h1, hw, hbr, ?_, ?_, ?_⟩
  · rw [hbr]
    rfl
  · rw [hw, hbr]
    decide
  · rw [hw, hbr, hres]
    simp

/-- Witness for C10 at a concrete no-match failing build. -/
theorem claim_C10_witness :
    (testVersion envNoMatch "3.0.0").1 = ⟨"3.0.0", true, false, []⟩ ∧
      workingOf (mainRun envNoMatch ["3.0.0"]).results = [] ∧
      brokenOf (mainRun envNoMatch ["3.0.0"]).results = [] := by
  have h := claim_C10_unclassified_probe envNoMatch "3.0.0" rfl rfl (by decide) (by decide)
  exact ⟨h.1, h.2.1, h.2.2.1⟩

end VersionTest
